import Mathlib

/-!
Shallow embedding of the patent ingestion pipeline (`Pipeline.py`) and the
search endpoint (`app.py`).

The pipeline reads raw JSON entries, flattens each into a record with a
derived `summary_text`, a SHA-256 `source_fingerprint` over the raw
(pre-normalization) application number and summary text, and a
`quality_score`; it then drops and recreates the DuckDB tables, lowercases
and strips the cleaned text columns, deletes and recreates the Chroma
collection, encodes the cleaned summaries and adds them with ids
`str(0) .. str(n-1)`.  The app embeds the raw request query and returns the
top-3 nearest entries joined with their metadata.

External collaborators are parameters: the SHA-256 digest is an abstract
`hash : String → String`, the sentence-transformer model is an abstract
encoder (`List String → Option (List V)` at build time, failure modelled by
`none`; `String → V` at query time), and the vector index distance is an
abstract `dist : V → V → Int`.
-/

/-- Python `str(x)` rendering of a possibly-`None` string value, as it occurs
inside an f-string: `None` prints as the four characters `"None"`. -/
def pyStr : Option String → String
  | none => "None"
  | some s => s

/-- Python truthiness of a possibly-`None` string: `None` and `""` are falsy. -/
def pyTruthy : Option String → Bool
  | none => false
  | some s => !s.isEmpty

/-- Python `str.lower()` (ASCII model). -/
def pyLower (s : String) : String := String.mk (s.data.map Char.toLower)

/-- Python `str.strip()`: drop leading and trailing whitespace. -/
def pyStrip (s : String) : String :=
  String.mk (((s.data.dropWhile Char.isWhitespace).reverse.dropWhile Char.isWhitespace).reverse)

/-- The normalization applied to the `summary_text` and `inventors` columns of
`df_clean` in `Pipeline.py` (STEP 4): `.str.lower().str.strip()`. -/
def cleanText (s : String) : String := pyStrip (pyLower s)

/-- One element of `applicationMetaData.inventorBag`; only
`inventorNameText` is read, `entry.get` defaulting to `None`. -/
structure RawInventor where
  inventorNameText : Option String
deriving DecidableEq, Repr

/-- One entry of `data["patentdata"]`, flattened to exactly the lookups the
records loop of `Pipeline.py` performs (each `get` yields `None`, modelled
`none`, when the key is missing at any level). `correspondence` stands for
the already-serialized `json.dumps(corr)` string. -/
structure RawEntry where
  applicationNumberText : Option String
  filingDate : Option String
  businessEntityStatusCategory : Option String
  firstInventorToFileIndicator : Option String
  inventorBag : List RawInventor
  correspondence : String
deriving DecidableEq, Repr

/-- `inventor_names = [i.get("inventorNameText", "") for i in inventors]`. -/
def inventorNames (e : RawEntry) : List String :=
  e.inventorBag.map (fun i => i.inventorNameText.getD "")

/-- `summary_text = f"{record['inventors']} | {record['entity_type']} | {record['filing_date']}"`,
with `inventors = ", ".join(inventor_names)`. -/
def summaryText (e : RawEntry) : String :=
  String.intercalate ", " (inventorNames e) ++ " | " ++
    pyStr e.businessEntityStatusCategory ++ " | " ++ pyStr e.filingDate

/-- `fingerprint_input = f"{record['application_number']}-{summary_text}"`:
built from the raw, pre-normalization values. -/
def fingerprintInput (e : RawEntry) : String :=
  pyStr e.applicationNumberText ++ "-" ++ summaryText e

/-- One row of the `records` list / DuckDB tables. -/
structure Record where
  application_number : Option String
  filing_date : Option String
  entity_type : Option String
  first_inventor_flag : Option String
  inventors : String
  correspondence_text : String
  summary_text : String
  source_fingerprint : String
  quality_score : Nat
deriving DecidableEq, Repr

/-- The body of the records loop of `Pipeline.py` (STEP 2) for one entry.
`hash` stands for `hashlib.sha256(...).hexdigest()`. -/
def mkRecord (hash : String → String) (e : RawEntry) : Record :=
  { application_number := e.applicationNumberText
    filing_date := e.filingDate
    entity_type := e.businessEntityStatusCategory
    first_inventor_flag := e.firstInventorToFileIndicator
    inventors := String.intercalate ", " (inventorNames e)
    correspondence_text := e.correspondence
    summary_text := summaryText e
    source_fingerprint := hash (fingerprintInput e)
    quality_score := (inventorNames e).length + (if pyTruthy e.filingDate then 1 else 0) }

/-- STEP 4 of `Pipeline.py` applied to one row: lowercase and strip the
`summary_text` and `inventors` columns, all other columns unchanged. -/
def cleanRecord (r : Record) : Record :=
  { r with summary_text := cleanText r.summary_text, inventors := cleanText r.inventors }

/-- The metadata dict sent to Chroma for one row:
`df_clean[["application_number", "filing_date", "entity_type", "source_fingerprint", "quality_score"]]`. -/
structure Meta where
  application_number : Option String
  filing_date : Option String
  entity_type : Option String
  source_fingerprint : String
  quality_score : Nat
deriving DecidableEq, Repr

/-- Project a cleaned row to its Chroma metadata dict. -/
def recordMeta (r : Record) : Meta :=
  { application_number := r.application_number
    filing_date := r.filing_date
    entity_type := r.entity_type
    source_fingerprint := r.source_fingerprint
    quality_score := r.quality_score }

/-- A Chroma collection as populated by `collection.add(documents, embeddings,
metadatas, ids)`: four parallel lists. `V` is the opaque vector type produced
by the embedding model. -/
structure Collection (V : Type) where
  ids : List String
  documents : List String
  embeddings : List V
  metadatas : List Meta
deriving DecidableEq

/-- The freshly created, still empty collection
(`chroma_client.create_collection`). -/
def emptyCollection (V : Type) : Collection V := ⟨[], [], [], []⟩

/-- The on-disk state the pipeline mutates: the two DuckDB tables and the
Chroma collection; `none` means the table/collection does not exist. -/
structure PipelineState (V : Type) where
  rawTable : Option (List Record)
  cleanedTable : Option (List Record)
  collection : Option (Collection V)
deriving DecidableEq

/-- One run of `Pipeline.py` over the prior on-disk state `s0`, with the
operations in source order: build `records`; `DROP TABLE IF EXISTS` both
tables; `CREATE TABLE raw_patents`; normalize into `df_clean`; `CREATE TABLE
cleaned_patents`; delete the existing collection and create a fresh empty
one; encode the cleaned summaries; on success `collection.add` everything
with ids `str(0) .. str(n-1)`.  A raised exception in `model.encode` is
modelled by `encode texts = none`: the run stops and the state is left as it
stands at that point. -/
def runPipeline {V : Type} (hash : String → String)
    (encode : List String → Option (List V)) (entries : List RawEntry)
    (s0 : PipelineState V) : PipelineState V :=
  let records := entries.map (mkRecord hash)
  let s1 : PipelineState V := { s0 with rawTable := none, cleanedTable := none }
  let s2 : PipelineState V := { s1 with rawTable := some records }
  let df_clean := records.map cleanRecord
  let s3 : PipelineState V := { s2 with cleanedTable := some df_clean }
  let s4 : PipelineState V := { s3 with collection := some (emptyCollection V) }
  let texts := df_clean.map (fun r => r.summary_text)
  let metadatas := df_clean.map recordMeta
  match encode texts with
  | none => s4
  | some embeddings =>
      let filled : Collection V :=
        { ids := (List.range texts.length).map Nat.repr
          documents := texts
          embeddings := embeddings
          metadatas := metadatas }
      { s4 with collection := some filled }

/-- The `cleaned_patents` table a reader sees (empty when absent). -/
def servedTable {V : Type} (s : PipelineState V) : List Record :=
  s.cleanedTable.getD []

/-- The collection `app.py` serves queries from:
`get_or_create_collection("patent_embeddings")` yields the stored collection,
or a fresh empty one when none exists. -/
def servedCollection {V : Type} (s : PipelineState V) : Collection V :=
  s.collection.getD (emptyCollection V)

/-- One stored entry of a collection, as seen by a query: id, document text,
embedding and metadata zipped together. -/
structure QEntry (V : Type) where
  id : String
  document : String
  embedding : V
  meta : Meta
deriving DecidableEq

/-- The aligned entries of a collection. -/
def collEntries {V : Type} (c : Collection V) : List (QEntry V) :=
  (c.ids.zip (c.documents.zip (c.embeddings.zip c.metadatas))).map
    (fun p => ⟨p.1, p.2.1, p.2.2.1, p.2.2.2⟩)

/-- `collection.query(query_embeddings=[qv], n_results=k)`: the `k` stored
entries nearest to `qv` under the index distance `dist`. -/
def collectionQuery {V : Type} (dist : V → V → Int) (qv : V) (k : Nat)
    (c : Collection V) : List (QEntry V) :=
  (List.insertionSort
    (fun a b => dist qv a.embedding ≤ dist qv b.embedding) (collEntries c)).take k

/-- One element of the `results` list built by `search_patents` in `app.py`. -/
structure SearchResult where
  summary : String
  application_number : Option String
  filing_date : Option String
  entity_type : Option String
  quality_score : Nat
  source_fingerprint : String
deriving DecidableEq, Repr

/-- `search_patents` in `app.py`: embed the raw request query (note: no
lowercasing or stripping is applied to it), query the collection with
`n_results=3`, and zip documents with metadatas into the response list. -/
def searchPatents {V : Type} (encodeOne : String → V) (dist : V → V → Int)
    (c : Collection V) (q : String) : List SearchResult :=
  let qv := encodeOne q
  (collectionQuery dist qv 3 c).map
    (fun en =>
      { summary := en.document
        application_number := en.meta.application_number
        filing_date := en.meta.filing_date
        entity_type := en.meta.entity_type
        quality_score := en.meta.quality_score
        source_fingerprint := en.meta.source_fingerprint })

/-- The `POST /search` endpoint including FastAPI body validation of
`QueryInput`: a missing (or non-string) `query` field fails pydantic
validation with a 422 client error; any present string — the empty string
included, `query : str` carries no length constraint — reaches
`search_patents`. -/
def handleSearch {V : Type} (encodeOne : String → V) (dist : V → V → Int)
    (c : Collection V) (body : Option String) : Except Nat (List SearchResult) :=
  match body with
  | none => Except.error 422
  | some q => Except.ok (searchPatents encodeOne dist c q)

/-- Number of distinct fingerprints stored in a collection — the number of
unique documents in the sense of the spec (equal fingerprint = duplicate). -/
def uniqueDocCount {V : Type} (c : Collection V) : Nat :=
  ((c.metadatas.map (fun m => m.source_fingerprint)).dedup).length

/-- Numeric value of a decimal digit character (inverse of `Nat.digitChar`
on `0..9`); used to show the ids `str(0) .. str(n-1)` are pairwise distinct. -/
def digitVal (c : Char) : Nat := c.toNat - 48

/-- Value of a decimal digit string, most significant digit first. -/
def digitsVal (l : List Char) : Nat := l.foldl (fun a c => 10 * a + digitVal c) 0

/-- Concrete test fixture: the end-to-end example record of the spec —
inventors `["Alice Smith"]`, filing date `2024-01-01`, entity type
`UNDISCOUNTED`. -/
def entryA : RawEntry :=
  { applicationNumberText := some "12345"
    filingDate := some "2024-01-01"
    businessEntityStatusCategory := some "UNDISCOUNTED"
    firstInventorToFileIndicator := some "true"
    inventorBag := [{ inventorNameText := some "Alice Smith" }]
    correspondence := "{}" }

/-- Concrete test fixture: a second, unrelated record. -/
def entryB : RawEntry :=
  { applicationNumberText := some "67890"
    filingDate := some "2023-05-05"
    businessEntityStatusCategory := some "SMALL"
    firstInventorToFileIndicator := some "false"
    inventorBag := [{ inventorNameText := some "Bob Jones" }]
    correspondence := "{}" }

/-- `entryA` with the entity-type field differing only in letter case. -/
def entryCase : RawEntry :=
  { entryA with businessEntityStatusCategory := some "undiscounted" }

/-- A concrete deterministic embedder (`V := Int`).  The real model is an
opaque text→vector map with no contract beyond determinism; this instance is
case- and whitespace-sensitive, as an embedding of distinct texts may be. -/
def enc1 : String → Int := fun s =>
  if s = "alice smith | undiscounted | 2024-01-01" then 0
  else if s = "bob jones | small | 2023-05-05" then 100
  else if s = "alice smith" then 10
  else if s = "  Alice Smith  " then 90
  else 50

/-- A concrete index distance for `V := Int`: squared difference. -/
def dist1 : Int → Int → Int := fun a b => (a - b) * (a - b)

/-- The on-disk state before any build: no tables, no collection. -/
def initialState : PipelineState Int := ⟨none, none, none⟩

/-- Snapshot from ingesting the same record twice (the dedup scenario of the
spec's end-to-end example). -/
def sDup : PipelineState Int :=
  runPipeline (fun s => s) (fun ts => some (ts.map enc1)) [entryA, entryA] initialState

/-- Snapshot from ingesting the two distinct records `entryA`, `entryB`. -/
def sAB : PipelineState Int :=
  runPipeline (fun s => s) (fun ts => some (ts.map enc1)) [entryA, entryB] initialState

/-- Snapshot from ingesting `entryA` alone. -/
def sA : PipelineState Int :=
  runPipeline (fun s => s) (fun ts => some (ts.map enc1)) [entryA] initialState

/-- State after a rebuild over prior snapshot `sA` in which `model.encode`
raises (the embedder fails mid-build). -/
def sFail : PipelineState Int :=
  runPipeline (fun s => s) (fun _ => none) [entryB] sA

/-- Record whose filing-date field is present but empty. -/
def e7entry : RawEntry :=
  { applicationNumberText := some "111"
    filingDate := some ""
    businessEntityStatusCategory := some "X"
    firstInventorToFileIndicator := none
    inventorBag := [{ inventorNameText := some "Alice Smith" }]
    correspondence := "{}" }

/-- Record with every optional field missing (and the primary identifying
attribute `applicationNumberText` missing as well). -/
def e8entry : RawEntry :=
  { applicationNumberText := none
    filingDate := none
    businessEntityStatusCategory := none
    firstInventorToFileIndicator := none
    inventorBag := [{ inventorNameText := some "Alice" }]
    correspondence := "{}" }

/-- Record with a plain entity-type field. -/
def e10a : RawEntry :=
  { applicationNumberText := some "222"
    filingDate := some "2024-01-01"
    businessEntityStatusCategory := some "SMALL"
    firstInventorToFileIndicator := none
    inventorBag := [{ inventorNameText := some "Alice Smith" }]
    correspondence := "{}" }

/-- `e10a` with the entity-type field differing only in surrounding
whitespace. -/
def e10b : RawEntry :=
  { applicationNumberText := some "222"
    filingDate := some "2024-01-01"
    businessEntityStatusCategory := some " SMALL"
    firstInventorToFileIndicator := none
    inventorBag := [{ inventorNameText := some "Alice Smith" }]
    correspondence := "{}" }

/-! ## General lemmas about the model -/

theorem digitVal_digitChar {d : Nat} (h : d < 10) : digitVal (Nat.digitChar d) = d := by
  interval_cases d <;> rfl

theorem toDigitsCore_acc (fuel n : Nat) (acc : List Char) :
    Nat.toDigitsCore 10 fuel n acc = Nat.toDigitsCore 10 fuel n [] ++ acc := by
  induction fuel generalizing n acc with
  | zero => simp [Nat.toDigitsCore]
  | succ f ih =>
    simp only [Nat.toDigitsCore]
    by_cases h : n / 10 = 0
    · simp [h]
    · rw [if_neg h, if_neg h, ih (n / 10) (Nat.digitChar (n % 10) :: acc),
        ih (n / 10) [Nat.digitChar (n % 10)], List.append_assoc]
      rfl

theorem digitsVal_toDigitsCore (fuel : Nat) : ∀ n : Nat, n < fuel →
    digitsVal (Nat.toDigitsCore 10 fuel n []) = n := by
  induction fuel with
  | zero => intro n h; omega
  | succ f ih =>
    intro n h
    simp only [Nat.toDigitsCore]
    by_cases h10 : n / 10 = 0
    · rw [if_pos h10]
      have hn : n < 10 := by omega
      simp [digitsVal, digitVal_digitChar (Nat.mod_lt n (by omega) : n % 10 < 10)]
      omega
    · rw [if_neg h10, toDigitsCore_acc]
      have hdiv : n / 10 < f := by
        have h1 : n / 10 < n := Nat.div_lt_self (by omega) (by omega)
        omega
      have hih := ih (n / 10) hdiv
      simp only [digitsVal, List.foldl_append] at hih ⊢
      rw [hih]
      simp [digitVal_digitChar (Nat.mod_lt n (by omega) : n % 10 < 10)]
      omega

/-- The decimal rendering `str(i)` of a natural number determines it:
distinct indices receive distinct Chroma ids. -/
theorem natRepr_injective : Function.Injective Nat.repr := by
  intro m n h
  have hd : Nat.toDigits 10 m = Nat.toDigits 10 n := by
    have h2 := congrArg String.data h
    simpa [Nat.repr, List.asString] using h2
  have hm := digitsVal_toDigitsCore (m + 1) m (Nat.lt_succ_self m)
  have hn := digitsVal_toDigitsCore (n + 1) n (Nat.lt_succ_self n)
  unfold Nat.toDigits at hd
  rw [hd] at hm
  rw [hm] at hn
  exact hn

/-- The outcome of a pipeline run does not depend on the prior on-disk
state: every table and the collection is dropped and rebuilt. -/
theorem runPipeline_state_indep {V : Type} (hash : String → String)
    (encode : List String → Option (List V)) (entries : List RawEntry)
    (s0 s1 : PipelineState V) :
    runPipeline hash encode entries s0 = runPipeline hash encode entries s1 := by
  unfold runPipeline
  cases encode (((entries.map (mkRecord hash)).map cleanRecord).map (fun r => r.summary_text)) <;>
    rfl

/-- Characterization of the state after a run whose embedder succeeds. -/
theorem runPipeline_success {V : Type} (hash : String → String)
    (encL : List String → List V) (entries : List RawEntry) (s0 : PipelineState V) :
    runPipeline hash (fun ts => some (encL ts)) entries s0 =
      { rawTable := some (entries.map (mkRecord hash))
        cleanedTable := some ((entries.map (mkRecord hash)).map cleanRecord)
        collection := some
          { ids := (List.range (((entries.map (mkRecord hash)).map cleanRecord).map
              (fun r => r.summary_text)).length).map Nat.repr
            documents := ((entries.map (mkRecord hash)).map cleanRecord).map
              (fun r => r.summary_text)
            embeddings := encL (((entries.map (mkRecord hash)).map cleanRecord).map
              (fun r => r.summary_text))
            metadatas := ((entries.map (mkRecord hash)).map cleanRecord).map recordMeta } } :=
  rfl

/-- After any run — the embedder may fail or succeed — the `cleaned_patents`
table holds one row per input entry (no record is ever skipped). -/
theorem runPipeline_cleanedTable {V : Type} (hash : String → String)
    (enc : List String → Option (List V)) (es : List RawEntry) (s0 : PipelineState V) :
    (runPipeline hash enc es s0).cleanedTable =
      some ((es.map (mkRecord hash)).map cleanRecord) := by
  simp only [runPipeline]
  cases enc (List.map (fun r => r.summary_text)
    (List.map cleanRecord (List.map (mkRecord hash) es))) <;> rfl

theorem length_searchPatents {V : Type} (encodeOne : String → V) (dist : V → V → Int)
    (c : Collection V) (q : String) :
    (searchPatents encodeOne dist c q).length = min 3 (collEntries c).length := by
  simp [searchPatents, collectionQuery, List.length_take, List.length_insertionSort]

theorem length_collEntries {V : Type} (c : Collection V) :
    (collEntries c).length =
      min c.ids.length (min c.documents.length (min c.embeddings.length c.metadatas.length)) := by
  simp [collEntries, List.length_zip]

theorem uniqueDocCount_le {V : Type} (c : Collection V) :
    uniqueDocCount c ≤ c.metadatas.length := by
  calc uniqueDocCount c ≤ (c.metadatas.map (fun m => m.source_fingerprint)).length :=
        (List.dedup_sublist _).length_le
    _ = c.metadatas.length := List.length_map _ _

/-! ## Claims -/

/-- Claim C1 (code bug). The claim says the same lowercase-plus-trim
normalization is applied to the query text before embedding as was applied
to each summary at ingestion, so `search("  Alice Smith  ")` and
`search("alice smith")` return the same top result.  The code embeds the
raw request query with no normalization (`model.encode(request.query)`),
so the guarantee fails: over the snapshot built from `entryA` and `entryB`
— whose first stored summary is exactly the normalized "alice smith …"
text — the raw query `"  Alice Smith  "` and its case-folded trimmed form
`"alice smith"` return different top results under the (case-sensitive)
embedder `enc1`. -/
theorem C1_query_text_not_normalized :
    cleanText "  Alice Smith  " = "alice smith" ∧
    (servedCollection sAB).documents =
      ["alice smith | undiscounted | 2024-01-01", "bob jones | small | 2023-05-05"] ∧
    ((searchPatents enc1 dist1 (servedCollection sAB) "  Alice Smith  ").head?).map
      (fun r => r.application_number) = some (some "67890") ∧
    ((searchPatents enc1 dist1 (servedCollection sAB) "alice smith").head?).map
      (fun r => r.application_number) = some (some "12345") := by
  decide

/-- Claim C2 (code bug). The claim says documents with equal fingerprint are
collapsed to the first occurrence, so ingesting the same record twice yields
one document.  The records loop of `Pipeline.py` computes
`source_fingerprint` but never consults it: ingesting `entryA` twice yields
two rows in `cleaned_patents` and two vector entries (ids "0" and "1"),
although both rows carry the same fingerprint. -/
theorem C2_duplicate_records_not_collapsed :
    (servedTable sDup).length = 2 ∧
    (servedCollection sDup).ids = ["0", "1"] ∧
    ((servedTable sDup).map (fun r => r.source_fingerprint)).dedup.length = 1 := by
  decide

/-- Claim C3 (code bug). The claim says a build in which the embedder fails
mid-build leaves the previously active snapshot served and unchanged.  The
code drops both DuckDB tables and deletes the Chroma collection before
`model.encode` runs: after a failed rebuild over the prior snapshot `sA`,
the served collection is the freshly created empty one, the cleaned table
holds the new rows, and a query that previously returned the old document
now returns nothing. -/
theorem C3_failed_build_destroys_previous_snapshot :
    sFail.collection = some (emptyCollection Int) ∧
    ¬sA.collection = some (emptyCollection Int) ∧
    sFail.cleanedTable ≠ sA.cleanedTable ∧
    (searchPatents enc1 dist1 (servedCollection sA) "alice smith").length = 1 ∧
    (searchPatents enc1 dist1 (servedCollection sFail) "alice smith").length = 0 := by
  decide

/-- Claim C4 (confirmed). For every snapshot produced by a successful build,
the vector index ids are exactly the decimal renderings of the row indices
`0 .. n-1` of the structured `cleaned_patents` table — the same list, and
without duplicates, so the key spaces of the two stores are in bijection. -/
theorem C4_table_and_index_ids_bijective {V : Type} (hash : String → String)
    (encL : List String → List V) (entries : List RawEntry) (s0 : PipelineState V) :
    (servedCollection (runPipeline hash (fun ts => some (encL ts)) entries s0)).ids =
      (List.range (servedTable (runPipeline hash (fun ts => some (encL ts)) entries s0)).length).map
        Nat.repr ∧
    ((servedCollection (runPipeline hash (fun ts => some (encL ts)) entries s0)).ids).Nodup := by
  rw [runPipeline_success]
  simp only [servedCollection, servedTable, Option.getD_some, List.length_map]
  exact ⟨by trivial, List.Nodup.map natRepr_injective (List.nodup_range _)⟩

/-- Claim C5 (confirmed). Re-running the builder on an unchanged input set
with the same (deterministic) embedder is idempotent: the rebuild over the
first build's state yields exactly the same snapshot — in particular the
same fingerprints, the same ids, the same vectors and the same document
count. -/
theorem C5_rebuild_idempotent {V : Type} (hash : String → String)
    (encode : List String → Option (List V)) (entries : List RawEntry)
    (s0 : PipelineState V) :
    runPipeline hash encode entries (runPipeline hash encode entries s0) =
      runPipeline hash encode entries s0 ∧
    (servedTable (runPipeline hash encode entries (runPipeline hash encode entries s0))).map
        (fun r => r.source_fingerprint) =
      (servedTable (runPipeline hash encode entries s0)).map (fun r => r.source_fingerprint) ∧
    (servedCollection (runPipeline hash encode entries (runPipeline hash encode entries s0))).ids =
      (servedCollection (runPipeline hash encode entries s0)).ids ∧
    (servedCollection (runPipeline hash encode entries
        (runPipeline hash encode entries s0))).embeddings =
      (servedCollection (runPipeline hash encode entries s0)).embeddings ∧
    (servedTable (runPipeline hash encode entries (runPipeline hash encode entries s0))).length =
      (servedTable (runPipeline hash encode entries s0)).length := by
  have h := runPipeline_state_indep hash encode entries
    (runPipeline hash encode entries s0) s0
  exact ⟨h, by rw [h], by rw [h], by rw [h], by rw [h]⟩

/-- Claim C6 (confirmed). Provided the embedder is 1:1 order-preserving on
its input batch (the interface contract), a query against a built snapshot
returns at most 3 results; it returns fewer than 3 only when the corpus
holds fewer than 3 unique documents (distinct fingerprints); and a corpus
of exactly one document yields exactly one result. -/
theorem C6_search_result_count_bounded {V : Type} (encodeOne : String → V)
    (dist : V → V → Int) (hash : String → String) (encL : List String → List V)
    (entries : List RawEntry) (s0 : PipelineState V) (q : String)
    (hlen : ∀ ts, (encL ts).length = ts.length) :
    (searchPatents encodeOne dist
        (servedCollection (runPipeline hash (fun ts => some (encL ts)) entries s0)) q).length ≤ 3 ∧
    ((searchPatents encodeOne dist
        (servedCollection (runPipeline hash (fun ts => some (encL ts)) entries s0)) q).length < 3 →
      uniqueDocCount (servedCollection (runPipeline hash (fun ts => some (encL ts)) entries s0)) < 3) ∧
    (entries.length = 1 →
      (searchPatents encodeOne dist
        (servedCollection (runPipeline hash (fun ts => some (encL ts)) entries s0)) q).length = 1) := by
  rw [runPipeline_success]
  simp only [servedCollection, Option.getD_some]
  rw [length_searchPatents, length_collEntries]
  simp only [List.length_map, List.length_range, hlen]
  have hu := uniqueDocCount_le
    (V := V)
    { ids := (List.range (((entries.map (mkRecord hash)).map cleanRecord).map
        (fun r => r.summary_text)).length).map Nat.repr
      documents := ((entries.map (mkRecord hash)).map cleanRecord).map (fun r => r.summary_text)
      embeddings := encL (((entries.map (mkRecord hash)).map cleanRecord).map
        (fun r => r.summary_text))
      metadatas := ((entries.map (mkRecord hash)).map cleanRecord).map recordMeta }
  simp only [List.length_map] at hu
  refine ⟨?_, ?_, ?_⟩
  · omega
  · intro h
    simp only [uniqueDocCount] at hu ⊢
    omega
  · intro h
    omega

/-- Witness for C6: a corpus of exactly one document (`entryA`), with a
concrete length-preserving embedder, yields exactly one result. -/
theorem C6_search_result_count_bounded_witness :
    (∀ ts : List String, (ts.map (fun _ => (0 : Int))).length = ts.length) ∧
    (searchPatents (fun _ => (0 : Int)) dist1
      (servedCollection (runPipeline (fun s => s)
        (fun ts => some (ts.map (fun _ => (0 : Int)))) [entryA] initialState)) "x").length = 1 :=
  ⟨fun ts => List.length_map ts _,
    (C6_search_result_count_bounded (fun _ => (0 : Int)) dist1 (fun s => s)
      (fun ts => ts.map (fun _ => (0 : Int))) [entryA] initialState "x"
      (fun ts => List.length_map ts _)).2.2 rfl⟩

/-- Counterexample for C7: a record whose filing-date field is present but
empty (`filingDate = ""`).  The claim's formula — inventor-entry count plus
1 when the filing-date field is present — demands 2 here, but the code uses
Python truthiness (`int(bool(record["filing_date"]))`), so the empty string
contributes 0 and the stored quality score is 1. -/
theorem C7_quality_score_counterexample :
    (mkRecord (fun s => s) e7entry).quality_score = 1 ∧
    e7entry.filingDate.isSome = true ∧ e7entry.inventorBag.length = 1 ∧
    ¬((mkRecord (fun s => s) e7entry).quality_score =
      e7entry.inventorBag.length + (if e7entry.filingDate.isSome then 1 else 0)) := by
  decide

/-- Claim C7 (corrected). For every record, `quality_score` equals the count
of inventor entries plus 1 when the filing-date field is present *and
non-empty* (Python truthiness); and for the end-to-end example record
(`entryA`: inventors `["Alice Smith"]`, filing date `2024-01-01`) the
quality score stored in the snapshot metadata equals 2. -/
theorem C7_quality_score_amended :
    (∀ (hash : String → String) (e : RawEntry),
      (mkRecord hash e).quality_score =
        e.inventorBag.length + (if pyTruthy e.filingDate then 1 else 0)) ∧
    (∀ hash : String → String,
      (recordMeta (cleanRecord (mkRecord hash entryA))).quality_score = 2) := by
  constructor
  · intro hash e
    simp [mkRecord, inventorNames]
  · intro hash
    rfl

/-- Counterexample for C8: for `e8entry`, whose optional fields are all
missing, the Normalizer does not default them to the empty string — they
stay null (`none`) — and the null values are rendered as the string
`"None"` inside the derived summary and hence inside the fingerprint
hashing input; the record is kept (not rejected) even though its primary
identifying attribute `applicationNumberText` is missing. -/
theorem C8_null_defaults_counterexample :
    (mkRecord (fun s => s) e8entry).entity_type = none ∧
    (mkRecord (fun s => s) e8entry).application_number = none ∧
    (mkRecord (fun s => s) e8entry).summary_text = "Alice | None | None" ∧
    (mkRecord (fun s => s) e8entry).source_fingerprint = "None-Alice | None | None" := by
  decide

/-- Claim C8 (corrected). The record loop never raises: a record with a
missing filing date keeps the null (`none`) value in the stored row — only
inventor names default to the empty string — and the null is rendered as
the literal text `"None"` inside the fingerprint hashing input; no
`MalformedRecordError` exists, and every input entry (a missing primary
identifying attribute included) yields exactly one row of the cleaned
table. -/
theorem C8_null_defaults_amended (hash : String → String) (e : RawEntry)
    (h : e.filingDate = none) :
    (mkRecord hash e).filing_date = none ∧
    (∃ p : String, fingerprintInput e = p ++ "None") ∧
    (∀ (enc : List String → Option (List Int)) (es : List RawEntry) (s0 : PipelineState Int),
      (servedTable (runPipeline hash enc es s0)).length = es.length) := by
  refine ⟨h, ?_, ?_⟩
  · refine ⟨pyStr e.applicationNumberText ++ "-" ++
      (String.intercalate ", " (inventorNames e) ++ " | " ++
        pyStr e.businessEntityStatusCategory ++ " | "), ?_⟩
    simp only [fingerprintInput, summaryText, h]
    simp [pyStr, String.append_assoc]
  · intro enc es s0
    rw [servedTable, runPipeline_cleanedTable]
    simp

/-- Witness for C8 at `e8entry`, whose filing date is missing. -/
theorem C8_null_defaults_amended_witness :
    e8entry.filingDate = none ∧
    ((mkRecord (fun s => s) e8entry).filing_date = none ∧
      (∃ p : String, fingerprintInput e8entry = p ++ "None") ∧
      (∀ (enc : List String → Option (List Int)) (es : List RawEntry) (s0 : PipelineState Int),
        (servedTable (runPipeline (fun s => s) enc es s0)).length = es.length)) :=
  ⟨rfl, C8_null_defaults_amended (fun s => s) e8entry rfl⟩

/-- Counterexample for C9: a request body whose `query` field is the empty
string is not rejected — it is processed into a (non-empty) result list
over the one-document snapshot `sA`. -/
theorem C9_empty_query_counterexample :
    handleSearch enc1 dist1 (servedCollection sA) (some "") =
      Except.ok (searchPatents enc1 dist1 (servedCollection sA) "") ∧
    searchPatents enc1 dist1 (servedCollection sA) "" =
      [{ summary := "alice smith | undiscounted | 2024-01-01"
         application_number := some "12345"
         filing_date := some "2024-01-01"
         entity_type := some "UNDISCOUNTED"
         quality_score := 2
         source_fingerprint := "12345-Alice Smith | UNDISCOUNTED | 2024-01-01" }] :=
  ⟨rfl, by decide⟩

/-- Claim C9 (corrected). A `POST /search` body with a *missing* (or
non-string) `query` field fails pydantic validation with a 422 client
error; but a present query string is never rejected — the empty string
included, since `query : str` carries no minimum length — and is always
processed into a result list. -/
theorem C9_query_validation_amended {V : Type} (encodeOne : String → V)
    (dist : V → V → Int) (c : Collection V) :
    handleSearch encodeOne dist c none = Except.error 422 ∧
    (∀ q : String, handleSearch encodeOne dist c (some q) =
      Except.ok (searchPatents encodeOne dist c q)) ∧
    (∀ (q : String) (n : Nat), handleSearch encodeOne dist c (some q) ≠ Except.error n) := by
  refine ⟨rfl, fun q => rfl, ?_⟩
  intro q n h
  simp [handleSearch] at h

/-- Counterexample for C10: `e10a` and `e10b` differ only in surrounding
whitespace of the entity-type field, yet their *cleaned* stored summary
texts are not identical — `.str.strip()` trims only the ends of the whole
summary string, not around each field, so the inner extra space survives
normalization. -/
theorem C10_inner_whitespace_counterexample :
    pyStr e10b.businessEntityStatusCategory = " " ++ pyStr e10a.businessEntityStatusCategory ∧
    e10a.applicationNumberText = e10b.applicationNumberText ∧
    e10a.filingDate = e10b.filingDate ∧ e10a.inventorBag = e10b.inventorBag ∧
    (cleanRecord (mkRecord (fun s => s) e10a)).summary_text ≠
      (cleanRecord (mkRecord (fun s => s) e10b)).summary_text := by
  decide

/-- Claim C10 (corrected). The fingerprint is computed from the raw,
pre-normalization application number and summary text: for two records
whose raw summaries differ only in letter case (they agree after
case-folding) while their raw fingerprint inputs differ, the stored cleaned
summary texts are identical but the fingerprints differ, for any injective
(collision-free) digest. -/
theorem C10_case_fold_amended (hash : String → String)
    (hinj : Function.Injective hash) (e1 e2 : RawEntry)
    (hcase : pyLower (summaryText e1) = pyLower (summaryText e2))
    (hraw : fingerprintInput e1 ≠ fingerprintInput e2) :
    (cleanRecord (mkRecord hash e1)).summary_text =
      (cleanRecord (mkRecord hash e2)).summary_text ∧
    (mkRecord hash e1).source_fingerprint ≠ (mkRecord hash e2).source_fingerprint := by
  constructor
  · show cleanText (summaryText e1) = cleanText (summaryText e2)
    unfold cleanText
    rw [hcase]
  · exact fun hcon => hraw (hinj hcon)

/-- Witness for C10: `entryA` and `entryCase` differ only in the letter case
of the entity-type field; with the identity digest (injective), the cleaned
summaries coincide and the fingerprints differ. -/
theorem C10_case_fold_amended_witness :
    pyLower (summaryText entryA) = pyLower (summaryText entryCase) ∧
    fingerprintInput entryA ≠ fingerprintInput entryCase ∧
    ((cleanRecord (mkRecord (fun s => s) entryA)).summary_text =
        (cleanRecord (mkRecord (fun s => s) entryCase)).summary_text ∧
      (mkRecord (fun s => s) entryA).source_fingerprint ≠
        (mkRecord (fun s => s) entryCase).source_fingerprint) :=
  ⟨by decide, by decide,
    C10_case_fold_amended (fun s => s) (fun _ _ hc => hc) entryA entryCase
      (by decide) (by decide)⟩
